import Mathlib

/-!
Formal model of `src/upload.js`, a BlueHost cPanel upload client.

The script exposes two client operations, `ensureRemoteDirectory`
(directory creation, lines 61-105) and `uploadFiles` (multipart upload,
lines 108-154), and an orchestrator `main` (lines 157-228) that uploads a
timestamped file, creates a timestamped directory and uploads a second
file into it.  Network interaction is modelled by a `FetchResult` oracle
(the provider's answer to one request); everything else is a direct
translation of the JavaScript.
-/

/-- JavaScript values as decoded from a JSON body, together with
`undefined`, which arises from probing a missing property.  `obj` keeps
the field list of the decoded object; keys of a parsed object are unique
and looked up by first occurrence. -/
inductive JsVal where
  | undefined
  | null
  | bool (b : Bool)
  | num (n : Int)
  | str (s : String)
  | arr (elems : List JsVal)
  | obj (fields : List (String × JsVal))

/-- Field lookup in a decoded object; a missing key reads as `undefined`. -/
def lookupField : List (String × JsVal) → String → JsVal
  | [], _ => .undefined
  | (k, v) :: rest, key => if k = key then v else lookupField rest key

/-- JavaScript nullish test: `null` and `undefined`. -/
def JsVal.isNullish : JsVal → Bool
  | .undefined => true
  | .null => true
  | _ => false

/-- Property access `base.key` as it happens at the head of a chain:
JavaScript throws a TypeError when the base is `null` or `undefined`;
on primitives and arrays the named properties probed by this script read
as `undefined`. -/
def getProp : JsVal → String → Except String JsVal
  | .undefined, _ => .error "TypeError"
  | .null, _ => .error "TypeError"
  | .obj fields, key => .ok (lookupField fields key)
  | _, _ => .ok .undefined

/-- Indexing `base[0]` of a non-nullish base, as in `data?.[0]`: element 0
of an array, property "0" of an object, first character of a string,
`undefined` otherwise. -/
def getIndex0 : JsVal → JsVal
  | .arr elems => elems.headD .undefined
  | .obj fields => lookupField fields "0"
  | .str s =>
      match s.data with
      | [] => .undefined
      | c :: _ => .str (String.mk [c])
  | _ => .undefined

/-- JavaScript truthiness, used by the `else if` test on line 97. -/
def JsVal.truthy : JsVal → Bool
  | .undefined => false
  | .null => false
  | .bool b => b
  | .num n => n != 0
  | .str s => s != ""
  | .arr _ => true
  | .obj _ => true

/-- Substring occurrence over character lists. -/
def hasSubstrChars (sub : List Char) : List Char → Bool
  | [] => sub.isEmpty
  | c :: rest => sub.isPrefixOf (c :: rest) || hasSubstrChars sub rest

/-- JavaScript `s.includes(sub)` for strings. -/
def jsIncludes (s sub : String) : Bool := hasSubstrChars sub.data s.data

/-- Strict equality `v === 1` (only the number 1 compares equal). -/
def isNumOne : JsVal → Bool
  | .num n => n == 1
  | _ => false

/-- The probe `payload.cpanelresult?.event?.result` (upload.js line 94).
The unguarded first access throws on a nullish payload; the optional
chain short-circuits to `undefined` afterwards. -/
def mkdirEventResult (payload : JsVal) : Except String JsVal := do
  let a ← getProp payload "cpanelresult"
  if a.isNullish then return .undefined
  let b ← getProp a "event"
  if b.isNullish then return .undefined
  getProp b "result"

/-- The probe `payload.cpanelresult?.data?.[0]?.reason?.includes('exists')`
(upload.js line 97): `undefined` when the optional chain short-circuits,
the boolean result of `includes` when `reason` is a string (or an array,
whose `includes` tests membership); calling `includes` on any other
non-nullish `reason` throws a TypeError. -/
def mkdirExistsCheck (payload : JsVal) : Except String JsVal := do
  let a ← getProp payload "cpanelresult"
  if a.isNullish then return .undefined
  let b ← getProp a "data"
  if b.isNullish then return .undefined
  let c := getIndex0 b
  if c.isNullish then return .undefined
  let d ← getProp c "reason"
  if d.isNullish then return .undefined
  match d with
  | .str s => return .bool (jsIncludes s "exists")
  | .arr elems =>
      return .bool (elems.any fun e =>
        match e with
        | .str s2 => s2 == "exists"
        | _ => false)
  | _ => .error "TypeError"

/-- Outcome of one client operation.  Returning `true` in the source is
`success`; a thrown `Error` is `failure` with the thrown message, and
`diag` records the payload the source dumps to `console.error` for
diagnostics before throwing (lines 102 and 151). -/
inductive OpResult where
  | success
  | failure (reason : String) (diag : Option JsVal)

/-- Classification of a decoded 2xx mkdir response (upload.js lines
92-104).  A Lean-level `Except.error` is an uncaught JavaScript
TypeError raised while probing the payload. -/
def classifyMkdir (payload : JsVal) : Except String OpResult := do
  let r ← mkdirEventResult payload
  if isNumOne r then return .success
  let e ← mkdirExistsCheck payload
  if e.truthy then return .success
  return .failure "Directory creation failed" (some payload)

/-- Classification of a decoded 2xx upload response (upload.js lines
144-153): `payload.status === 1`. -/
def classifyUpload (payload : JsVal) : Except String OpResult := do
  let s ← getProp payload "status"
  if isNumOne s then return .success
  return .failure "File upload failed" (some payload)

/-- Result of one `fetch`: the promise rejects (`netError`), a non-2xx
response arrives (`httpError`), or a 2xx response with a decoded JSON
body arrives (`ok`). -/
inductive FetchResult where
  | netError (msg : String)
  | httpError (status : Nat) (statusText : String)
  | ok (payload : JsVal)

/-- `ensureRemoteDirectory` (upload.js lines 61-105) given the provider's
answer to its GET request: transport errors rethrow as
`Fetch failed: <msg>` (line 84), non-2xx as `HTTP <status>: <statusText>`
(line 89), and a 2xx payload is classified. -/
def ensureRemoteDirectory (fr : FetchResult) : Except String OpResult :=
  match fr with
  | .netError msg => .ok (.failure ("Fetch failed: " ++ msg) none)
  | .httpError status statusText =>
      .ok (.failure ("HTTP " ++ toString status ++ ": " ++ statusText) none)
  | .ok payload => classifyMkdir payload

/-- A local file queued for upload: its path and its contents (the bytes
the script writes are plain text, modelled as a string). -/
structure LocalFile where
  path : String
  content : String

/-- `path.basename`: the final path segment, for the slash-separated
paths this script builds. -/
def basename (p : String) : String :=
  String.mk ((p.data.reverse.takeWhile (fun c => c != '/')).reverse)

/-- One entry of the multipart `FormData` body: a plain field, or a file
part carrying a filename, contents and a content type. -/
inductive FormEntry where
  | field (key value : String)
  | filePart (key fileName content contentType : String)

/-- True for plain (non-file) form fields. -/
def isFieldEntry : FormEntry → Bool
  | .field _ _ => true
  | .filePart _ _ _ _ => false

/-- The loop of upload.js lines 114-122: one part per file, keyed
`file-<index>` starting from the given index, carrying the file's base
name, its contents and the fixed type `text/plain`. -/
def addFileParts : Nat → List LocalFile → List FormEntry
  | _, [] => []
  | index, f :: rest =>
      .filePart ("file-" ++ toString index) (basename f.path) f.content "text/plain"
        :: addFileParts (index + 1) rest

/-- The body built on upload.js lines 111-122: `form.set('dir', remoteDir)`
followed by the file parts keyed from 1. -/
def buildUploadForm (remoteDir : String) (localFiles : List LocalFile) : List FormEntry :=
  .field "dir" remoteDir :: addFileParts 1 localFiles

/-- Response handling of `uploadFiles` (upload.js lines 124-153): the same
transport and HTTP error rethrows as the mkdir operation, then
classification of a 2xx payload. -/
def uploadRespond (fr : FetchResult) : Except String OpResult :=
  match fr with
  | .netError msg => .ok (.failure ("Fetch failed: " ++ msg) none)
  | .httpError status statusText =>
      .ok (.failure ("HTTP " ++ toString status ++ ": " ++ statusText) none)
  | .ok payload => classifyUpload payload

/-- `uploadFiles` (upload.js lines 108-154) given the provider's answer to
its POST: the multipart body it sends and the operation outcome. -/
def uploadFiles (remoteDir : String) (localFiles : List LocalFile) (fr : FetchResult) :
    List FormEntry × Except String OpResult :=
  (buildUploadForm remoteDir localFiles, uploadRespond fr)

/-- Configuration read from the environment: `USERNAME` and the
`HOME_BASE` override (default `/home2`), upload.js lines 30-35. -/
structure Config where
  user : String
  homeBase : String

/-- `PUBLIC_HTML_PATH` (upload.js line 35). -/
def publicHtmlPath (cfg : Config) : String :=
  cfg.homeBase ++ "/" ++ cfg.user ++ "/public_html"

/-- The provider's answers to the three requests `main` issues, in order,
plus whether the final `fs.rm` of the temp directory would succeed. -/
structure Env where
  upload1 : FetchResult
  mkdir1 : FetchResult
  upload2 : FetchResult
  cleanupOk : Bool

/-- One remote call attempted by the orchestrator, with its parameters. -/
inductive Step where
  | uploadCall (remoteDir : String) (form : List FormEntry)
  | mkdirCall (parentPath dirName : String)

/-- Observable outcome of one run of `main`: the remote calls attempted in
order, the process exit code, whether the `finally` cleanup ran, and
whether the temp directory was actually removed. -/
structure RunOutcome where
  steps : List Step
  exitCode : Nat
  cleanupAttempted : Bool
  tempRemoved : Bool

/-- `main` (upload.js lines 157-228) with the timestamp fixed and network
answers supplied by `env`.  A thrown operation error reaches the `catch`
block, which calls `process.exit(1)`; in Node `process.exit` terminates
the process immediately, so the `finally` block (and with it the temp
directory cleanup of lines 219-224) never runs on those paths.  On the
success path the `finally` cleanup runs; if `fs.rm` fails only a warning
is printed and the process still exits 0. -/
def runMain (cfg : Config) (timestamp : String) (env : Env) : RunOutcome :=
  let file1 : LocalFile := ⟨"temp_upload/" ++ (timestamp ++ ".txt"), "hello world"⟩
  let call1 := uploadFiles "public_html" [file1] env.upload1
  let step1 := Step.uploadCall "public_html" call1.1
  match call1.2 with
  | .ok .success =>
    let dirName := timestamp ++ "_test_dir"
    let step2 := Step.mkdirCall (publicHtmlPath cfg) dirName
    match ensureRemoteDirectory env.mkdir1 with
    | .ok .success =>
      let file2 : LocalFile := ⟨"temp_upload/" ++ (timestamp ++ "_file2.txt"), "hello world"⟩
      let call3 := uploadFiles ("public_html/" ++ dirName) [file2] env.upload2
      let step3 := Step.uploadCall ("public_html/" ++ dirName) call3.1
      match call3.2 with
      | .ok .success => ⟨[step1, step2, step3], 0, true, env.cleanupOk⟩
      | _ => ⟨[step1, step2, step3], 1, false, false⟩
    | _ => ⟨[step1, step2], 1, false, false⟩
  | _ => ⟨[step1], 1, false, false⟩

/-- Total property read used to state the spec's conditions about the
JSON shape: the value of `base.key` when the base is an object, and
`undefined` otherwise (in particular on a nullish base, matching what an
optional chain yields there). -/
def propD : JsVal → String → JsVal
  | .obj fields, key => lookupField fields key
  | _, _ => .undefined

/-- The value sitting at `cpanelresult.event.result` of a payload, read
totally. -/
def specMkdirResultVal (p : JsVal) : JsVal :=
  propD (propD (propD p "cpanelresult") "event") "result"

/-- The value sitting at `cpanelresult.data[0].reason` of a payload, read
totally. -/
def specReasonVal (p : JsVal) : JsVal :=
  propD (getIndex0 (propD (propD p "cpanelresult") "data")) "reason"

/-- The probed reason value is absent, nullish or a string: the payloads
on which the exists-substring rule of the spec is meaningful. -/
def reasonIsTextOrAbsent (p : JsVal) : Bool :=
  match specReasonVal p with
  | .undefined => true
  | .null => true
  | .str _ => true
  | _ => false

/-- The probed reason value has a callable or short-circuited `includes`:
absent, nullish, a string or an array.  Exactly on these payloads the
exists-probe of line 97 cannot throw. -/
def reasonProbeSafe (p : JsVal) : Bool :=
  match specReasonVal p with
  | .undefined => true
  | .null => true
  | .str _ => true
  | .arr _ => true
  | _ => false

/-- Value of the exists-probe when it cannot throw, stated over the total
readers. -/
def existsCheckVal (p : JsVal) : JsVal :=
  match specReasonVal p with
  | .str s => .bool (jsIncludes s "exists")
  | .arr elems =>
      .bool (elems.any fun e =>
        match e with
        | .str s2 => s2 == "exists"
        | _ => false)
  | _ => .undefined

/-- Reason category of a transport failure: the `Fetch failed:` prefix. -/
def isTransportReason (r : String) : Bool := "Fetch failed:".data.isPrefixOf r.data

/-- Reason category of an HTTP status failure: the `HTTP` prefix. -/
def isHttpReason (r : String) : Bool := "HTTP".data.isPrefixOf r.data

/-- A 2xx mkdir payload whose event result is 1 (the shape the provider
answers with on success). -/
def mkdirSuccessPayload : JsVal :=
  .obj [("cpanelresult", .obj [("event", .obj [("result", .num 1)])])]

/-- A 2xx mkdir payload reporting failure with a reason mentioning that
the target exists (the shape the provider answers with on a repeated
mkdir). -/
def mkdirExistsFailurePayload : JsVal :=
  .obj [("cpanelresult",
    .obj [("event", .obj [("result", .num 0)]),
          ("data", .arr [.obj [("reason", .str "mkdir: File exists")]])])]

/-- Modelled from the claim scenario for idempotent creation: the provider
answers a mkdir of a fresh name with the success indicator and a mkdir of
an existing name with a failure whose reason text contains `exists`. -/
def providerMkdirRespond (existing : List String) (name : String) : JsVal :=
  if name ∈ existing then mkdirExistsFailurePayload else mkdirSuccessPayload

/-- A 2xx upload payload with top-level status 1. -/
def uploadOkPayload : JsVal := .obj [("status", .num 1)]

/-- Environment of a fully successful run: every request is answered with
its success payload. -/
def mainSuccessEnv (cleanupOk : Bool) : Env :=
  ⟨.ok uploadOkPayload, .ok mkdirSuccessPayload, .ok uploadOkPayload, cleanupOk⟩

/-- Example configuration used by concrete witnesses. -/
def cfgEx : Config := ⟨"exampleuser", "/home2"⟩

/-- Environment in which the mkdir request is answered 2xx with an empty
object: no success indicator and no exists reason, so the directory step
fails. -/
def envMkdirFailEx : Env :=
  ⟨.ok uploadOkPayload, .ok (JsVal.obj []), .ok uploadOkPayload, true⟩

/-- The orchestrator attempts an upload into the given remote directory. -/
def attemptsUploadTo (o : RunOutcome) (dir : String) : Prop :=
  ∃ form, Step.uploadCall dir form ∈ o.steps


/-! ## Helper lemmas -/

theorem strMk_data (s : String) : String.mk s.data = s := by
  cases s
  rfl

theorem strData_append (a b : String) : (a ++ b).data = a.data ++ b.data := by
  cases a
  cases b
  rfl

theorem isPrefixOf_append {p l m : List Char} (h : p.isPrefixOf l = true) :
    p.isPrefixOf (l ++ m) = true := by
  rw [List.isPrefixOf_iff_prefix] at h ⊢
  exact h.trans (List.prefix_append l m)

theorem isPrefixOf_cons_false {a b : Char} (as bs : List Char) (h : (a == b) = false) :
    (a :: as).isPrefixOf (b :: bs) = false := by
  rw [Bool.eq_false_iff]
  intro hpre
  rw [List.isPrefixOf_iff_prefix, List.cons_prefix_cons] at hpre
  simp [hpre.1] at h

theorem prefix_head_eq {a : Char} {as l : List Char} (h : (a :: as).isPrefixOf l = true) :
    ∃ t, l = a :: t := by
  rw [List.isPrefixOf_iff_prefix] at h
  cases l with
  | nil => simp at h
  | cons b t =>
      rw [List.cons_prefix_cons] at h
      exact ⟨t, by rw [h.1]⟩

theorem takeWhile_append_stop (p : Char → Bool) (l1 l2 : List Char) (x : Char)
    (h1 : ∀ c ∈ l1, p c = true) (hx : p x = false) :
    (l1 ++ x :: l2).takeWhile p = l1 := by
  induction l1 with
  | nil => simp [List.takeWhile_cons, hx]
  | cons a t ih =>
      have ha : p a = true := h1 a (by simp)
      simp only [List.cons_append, List.takeWhile_cons, ha, if_true]
      rw [ih fun c hc => h1 c (by simp [hc])]

theorem basename_tempUpload (s : String) (h : '/' ∉ s.data) :
    basename ("temp_upload/" ++ s) = s := by
  unfold basename
  rw [strData_append]
  have hrev : ("temp_upload/".data ++ s.data).reverse
      = s.data.reverse ++ '/' :: "temp_upload".data.reverse := by
    rw [List.reverse_append]
    rfl
  rw [hrev, takeWhile_append_stop _ _ _ _ ?_ (by decide)]
  · rw [List.reverse_reverse, strMk_data]
  · intro c hc
    have hc' : c ∈ s.data := by simpa using hc
    have : c ≠ '/' := fun he => h (he ▸ hc')
    simpa using this

theorem propD_nullish (v : JsVal) (k : String) (h : v.isNullish = true) :
    propD v k = .undefined := by
  cases v <;> simp_all [JsVal.isNullish, propD]

theorem getProp_not_nullish (v : JsVal) (k : String) (h : v.isNullish = false) :
    getProp v k = .ok (propD v k) := by
  cases v <;> simp_all [JsVal.isNullish, getProp, propD]

theorem getIndex0_nullish (v : JsVal) (h : v.isNullish = true) : getIndex0 v = .undefined := by
  cases v <;> simp_all [JsVal.isNullish, getIndex0]

theorem isNumOne_iff (v : JsVal) : isNumOne v = true ↔ v = .num 1 := by
  cases v <;> simp [isNumOne]

theorem mkdirEventResult_eq (p : JsVal) (h : p.isNullish = false) :
    mkdirEventResult p = .ok (specMkdirResultVal p) := by
  unfold mkdirEventResult specMkdirResultVal
  rw [getProp_not_nullish p "cpanelresult" h]
  simp only [Bind.bind, Except.bind]
  cases h1 : (propD p "cpanelresult").isNullish with
  | true =>
      rw [propD_nullish _ "event" h1]
      simp [h1, propD, pure, Except.pure]
  | false =>
      rw [getProp_not_nullish _ "event" h1]
      simp only [h1]
      cases h2 : (propD (propD p "cpanelresult") "event").isNullish with
      | true =>
          rw [propD_nullish _ "result" h2]
          simp [h2, propD, pure, Except.pure]
      | false =>
          simp [h2, getProp_not_nullish _ "result" h2, pure, Except.pure]

theorem mkdirExistsCheck_eq (p : JsVal) (h : p.isNullish = false)
    (hs : reasonProbeSafe p = true) :
    mkdirExistsCheck p = .ok (existsCheckVal p) := by
  unfold mkdirExistsCheck
  rw [getProp_not_nullish p "cpanelresult" h]
  simp only [Bind.bind, Except.bind]
  cases h1 : (propD p "cpanelresult").isNullish with
  | true =>
      have hr : specReasonVal p = .undefined := by
        unfold specReasonVal
        rw [propD_nullish _ "data" h1]
        rfl
      simp [h1, existsCheckVal, hr, pure, Except.pure]
  | false =>
      rw [getProp_not_nullish _ "data" h1]
      simp only [h1]
      cases h2 : (propD (propD p "cpanelresult") "data").isNullish with
      | true =>
          have hr : specReasonVal p = .undefined := by
            unfold specReasonVal
            rw [getIndex0_nullish _ h2]
            rfl
          simp [h2, existsCheckVal, hr, pure, Except.pure]
      | false =>
          cases h3 : (getIndex0 (propD (propD p "cpanelresult") "data")).isNullish with
          | true =>
              have hr : specReasonVal p = .undefined := by
                unfold specReasonVal
                rw [propD_nullish _ "reason" h3]
              simp [h2, h3, existsCheckVal, hr, pure, Except.pure]
          | false =>
              rw [getProp_not_nullish _ "reason" h3]
              simp only [h2, h3]
              rw [show propD (getIndex0 (propD (propD p "cpanelresult") "data")) "reason"
                  = specReasonVal p from rfl]
              cases h4 : specReasonVal p with
              | undefined => simp [existsCheckVal, h4, JsVal.isNullish, pure, Except.pure]
              | null => simp [existsCheckVal, h4, JsVal.isNullish, pure, Except.pure]
              | str s => simp [existsCheckVal, h4, JsVal.isNullish, pure, Except.pure]
              | arr elems => simp [existsCheckVal, h4, JsVal.isNullish, pure, Except.pure]
              | bool b => simp [reasonProbeSafe, h4] at hs
              | num n => simp [reasonProbeSafe, h4] at hs
              | obj fields => simp [reasonProbeSafe, h4] at hs

theorem classifyMkdir_char (p : JsVal) (h : p.isNullish = false)
    (hs : reasonProbeSafe p = true) :
    classifyMkdir p =
      .ok (if isNumOne (specMkdirResultVal p) then .success
        else if (existsCheckVal p).truthy then .success
        else .failure "Directory creation failed" (some p)) := by
  unfold classifyMkdir
  rw [mkdirEventResult_eq p h]
  simp only [Bind.bind, Except.bind]
  cases hb : isNumOne (specMkdirResultVal p) with
  | true => simp [hb, pure, Except.pure]
  | false =>
      rw [mkdirExistsCheck_eq p h hs]
      cases he : (existsCheckVal p).truthy with
      | true => simp [hb, he, pure, Except.pure]
      | false => simp [hb, he, pure, Except.pure]

theorem classifyUpload_char (p : JsVal) (h : p.isNullish = false) :
    classifyUpload p =
      .ok (if isNumOne (propD p "status") then .success
        else .failure "File upload failed" (some p)) := by
  unfold classifyUpload
  rw [getProp_not_nullish p "status" h]
  simp only [Bind.bind, Except.bind]
  cases hb : isNumOne (propD p "status") <;> simp [hb, pure, Except.pure]

theorem classifyMkdir_failure_reason (p : JsVal) (r : String) (d : Option JsVal)
    (hf : classifyMkdir p = .ok (.failure r d)) : r = "Directory creation failed" := by
  unfold classifyMkdir at hf
  cases hm : mkdirEventResult p with
  | error e =>
      rw [hm] at hf
      simp [Bind.bind, Except.bind] at hf
  | ok v =>
      rw [hm] at hf
      simp only [Bind.bind, Except.bind] at hf
      cases h1 : isNumOne v with
      | true => simp [h1, pure, Except.pure] at hf
      | false =>
          simp only [h1] at hf
          cases he : mkdirExistsCheck p with
          | error e =>
              rw [he] at hf
              simp [pure, Except.pure] at hf
          | ok ev =>
              rw [he] at hf
              cases h2 : ev.truthy with
              | true => simp [h2, pure, Except.pure] at hf
              | false =>
                  simp [h2, pure, Except.pure] at hf
                  exact hf.1.symm

theorem classifyUpload_failure_reason (p : JsVal) (r : String) (d : Option JsVal)
    (hf : classifyUpload p = .ok (.failure r d)) : r = "File upload failed" := by
  unfold classifyUpload at hf
  cases hm : getProp p "status" with
  | error e =>
      rw [hm] at hf
      simp [Bind.bind, Except.bind] at hf
  | ok v =>
      rw [hm] at hf
      simp only [Bind.bind, Except.bind] at hf
      cases h1 : isNumOne v with
      | true => simp [h1, pure, Except.pure] at hf
      | false =>
          simp [h1, pure, Except.pure] at hf
          exact hf.1.symm

theorem reasonProbeSafe_of_text (p : JsVal) (hr : reasonIsTextOrAbsent p = true) :
    reasonProbeSafe p = true := by
  cases h4 : specReasonVal p <;>
    simp_all [reasonIsTextOrAbsent, reasonProbeSafe, h4]

/-! ## Claim theorems -/

/-- C3: for every directory name not already present on the provider
(which answers the first mkdir with the success indicator and the
identical second mkdir with a failure whose reason text contains
`exists`), `createDirectory` returns Success both times. -/
theorem createDirectoryIdempotent (existing : List String) (name : String)
    (h : name ∉ existing) :
    ensureRemoteDirectory (.ok (providerMkdirRespond existing name)) = .ok .success ∧
    ensureRemoteDirectory (.ok (providerMkdirRespond (name :: existing) name)) = .ok .success := by
  constructor
  · unfold providerMkdirRespond
    rw [if_neg h]
    rfl
  · unfold providerMkdirRespond
    rw [if_pos (List.mem_cons_self name existing)]
    rfl

/-- C3 witness: a concrete fresh directory name is created successfully
twice in a row. -/
theorem createDirectoryIdempotent_witness :
    ("20250101_test_dir" ∉ ([] : List String)) ∧
    (ensureRemoteDirectory (.ok (providerMkdirRespond [] "20250101_test_dir")) = .ok .success ∧
      ensureRemoteDirectory
        (.ok (providerMkdirRespond ["20250101_test_dir"] "20250101_test_dir")) = .ok .success) :=
  ⟨by decide, createDirectoryIdempotent [] "20250101_test_dir" (by decide)⟩

/-- C8: contrary to the claim, the temp directory is NOT removed on
failure paths.  `process.exit(1)` inside the `catch` block terminates
Node before the `finally` cleanup can run, so a run whose mkdir step
fails exits 1 with the cleanup never attempted; only the full-success
path runs the cleanup. -/
theorem failurePathSkipsCleanup :
    (runMain cfgEx "20250101120000" envMkdirFailEx).exitCode = 1 ∧
    (runMain cfgEx "20250101120000" envMkdirFailEx).cleanupAttempted = false ∧
    (runMain cfgEx "20250101120000" envMkdirFailEx).tempRemoved = false ∧
    (runMain cfgEx "20250101120000" (mainSuccessEnv true)).cleanupAttempted = true ∧
    (runMain cfgEx "20250101120000" (mainSuccessEnv true)).tempRemoved = true :=
  ⟨rfl, rfl, rfl, rfl, rfl⟩

/-- C9 (amended): the orchestrator makes three client calls —
`uploadFiles` into `public_html`, then `createDirectory` for the nested
directory, then `uploadFiles` into the nested directory — all names
generated from the one shared timestamp. -/
theorem orchestrationCallSequence (cfg : Config) (ts : String) (cl : Bool) :
    (runMain cfg ts (mainSuccessEnv cl)).steps =
      [Step.uploadCall "public_html"
          (buildUploadForm "public_html" [⟨"temp_upload/" ++ (ts ++ ".txt"), "hello world"⟩]),
        Step.mkdirCall (publicHtmlPath cfg) (ts ++ "_test_dir"),
        Step.uploadCall ("public_html/" ++ (ts ++ "_test_dir"))
          (buildUploadForm ("public_html/" ++ (ts ++ "_test_dir"))
            [⟨"temp_upload/" ++ (ts ++ "_file2.txt"), "hello world"⟩])] := rfl

/-- C9 counterexample: even on a fully successful concrete run, the call
sequence is not `createDirectory, uploadFiles, createDirectory,
uploadFiles` as claimed — the run makes three calls and the first one is
an upload, not a directory creation. -/
theorem orchestrationNotMkdirFirst :
    ¬ ∃ p1 n1 d1 f1 p2 n2 d2 f2,
        (runMain cfgEx "20250101120000" (mainSuccessEnv true)).steps =
          [Step.mkdirCall p1 n1, Step.uploadCall d1 f1,
            Step.mkdirCall p2 n2, Step.uploadCall d2 f2] := by
  rintro ⟨p1, n1, d1, f1, p2, n2, d2, f2, hsteps⟩
  have h3 : (runMain cfgEx "20250101120000" (mainSuccessEnv true)).steps.length = 3 := rfl
  rw [hsteps] at h3
  simp at h3

/-- C10 counterexample: the classification is not total — on the JSON
payload `null` the first, unguarded property access of the mkdir
classifier throws a TypeError instead of falling through to Failure. -/
theorem classificationMkdirNullTypeError :
    classifyMkdir JsVal.null = .error "TypeError" := rfl

/-- C10 (amended): on every non-nullish decoded payload the upload
classification is total, and the mkdir classification is total whenever
the probed reason value is absent, nullish, a string or an array; such
payloads always reach a returned result rather than a thrown TypeError. -/
theorem classificationTotality (p : JsVal) (h : p.isNullish = false) :
    (∃ res, classifyUpload p = .ok res) ∧
    (reasonProbeSafe p = true → ∃ res, classifyMkdir p = .ok res) := by
  constructor
  · exact ⟨_, classifyUpload_char p h⟩
  · intro hs
    exact ⟨_, classifyMkdir_char p h hs⟩

/-- C10 witness: the empty-object payload is classified without a throw
by both operations. -/
theorem classificationTotality_witness :
    ((JsVal.obj []).isNullish = false) ∧
    ((∃ res, classifyUpload (JsVal.obj []) = .ok res) ∧
      (reasonProbeSafe (JsVal.obj []) = true →
        ∃ res, classifyMkdir (JsVal.obj []) = .ok res)) :=
  ⟨rfl, classificationTotality (JsVal.obj []) rfl⟩

/-- C7 counterexample: a decoded 2xx payload that is JSON `null` does not
yield Failure with the raw payload attached — `payload.status` throws a
TypeError. -/
theorem uploadNullPayloadTypeError :
    classifyUpload JsVal.null = .error "TypeError" := rfl

/-- C7 (amended): for every non-null decoded 2xx payload, `uploadFiles`
returns Success exactly when the top-level `status` field strictly
equals 1; any other such payload yields Failure carrying the raw
payload. -/
theorem uploadStatusClassification (p : JsVal) (h : p.isNullish = false) :
    (classifyUpload p = .ok .success ↔ propD p "status" = JsVal.num 1) ∧
    (propD p "status" ≠ JsVal.num 1 →
      classifyUpload p = .ok (.failure "File upload failed" (some p))) := by
  rw [classifyUpload_char p h]
  constructor
  · constructor
    · intro hsucc
      by_cases hA : isNumOne (propD p "status") = true
      · exact (isNumOne_iff _).mp hA
      · simp only [Bool.not_eq_true] at hA
        simp [hA] at hsucc
    · intro h1
      simp [(isNumOne_iff _).mpr h1]
  · intro hne
    have hA : isNumOne (propD p "status") = false := by
      cases hq : isNumOne (propD p "status") with
      | false => rfl
      | true => exact absurd ((isNumOne_iff _).mp hq) hne
    simp [hA]

/-- C7 witness: the status-1 payload is Success, and its status field is
indeed the number 1. -/
theorem uploadStatusClassification_witness :
    (uploadOkPayload.isNullish = false) ∧
    ((classifyUpload uploadOkPayload = .ok .success ↔
        propD uploadOkPayload "status" = JsVal.num 1) ∧
      (propD uploadOkPayload "status" ≠ JsVal.num 1 →
        classifyUpload uploadOkPayload = .ok (.failure "File upload failed" (some uploadOkPayload)))) :=
  ⟨rfl, uploadStatusClassification uploadOkPayload rfl⟩

/-- C1 counterexample: a payload satisfying neither success condition need
not yield Failure carrying the payload — when `reason` is the number 5
(not text, so neither condition holds: the event result is undefined and
the reason contains no text at all), the call `reason?.includes('exists')`
throws a TypeError instead. -/
theorem createDirectoryReasonTypeError :
    classifyMkdir (JsVal.obj [("cpanelresult",
        JsVal.obj [("data", JsVal.arr [JsVal.obj [("reason", JsVal.num 5)]])])])
      = .error "TypeError" ∧
    specMkdirResultVal (JsVal.obj [("cpanelresult",
        JsVal.obj [("data", JsVal.arr [JsVal.obj [("reason", JsVal.num 5)]])])])
      ≠ JsVal.num 1 ∧
    specReasonVal (JsVal.obj [("cpanelresult",
        JsVal.obj [("data", JsVal.arr [JsVal.obj [("reason", JsVal.num 5)]])])])
      = JsVal.num 5 :=
  ⟨rfl, fun hcontra => JsVal.noConfusion hcontra, rfl⟩

/-- C1 (amended): for every non-nullish decoded payload,
`createDirectory` returns Success whenever `cpanelresult.event.result`
is the number 1 (checked first, so the reason is then never probed);
and whenever the probed `cpanelresult.data[0].reason` value is absent,
nullish or a string, the call returns Success exactly when the result
field is 1 or, otherwise, the reason string contains the substring
`exists`, while a payload satisfying neither yields Failure carrying the
raw decoded payload. -/
theorem createDirectoryClassification (p : JsVal) (h : p.isNullish = false) :
    (specMkdirResultVal p = JsVal.num 1 → classifyMkdir p = .ok .success) ∧
    (reasonIsTextOrAbsent p = true →
      ((classifyMkdir p = .ok .success ↔
          (specMkdirResultVal p = JsVal.num 1 ∨
            ∃ s, specReasonVal p = JsVal.str s ∧ jsIncludes s "exists" = true)) ∧
        ((specMkdirResultVal p ≠ JsVal.num 1 ∧
            ¬ ∃ s, specReasonVal p = JsVal.str s ∧ jsIncludes s "exists" = true) →
          classifyMkdir p = .ok (.failure "Directory creation failed" (some p))))) := by
  constructor
  · intro h1
    unfold classifyMkdir
    rw [mkdirEventResult_eq p h, h1]
    simp [Bind.bind, Except.bind, isNumOne, pure, Except.pure]
  · intro hr
    have hs : reasonProbeSafe p = true := reasonProbeSafe_of_text p hr
    rw [classifyMkdir_char p h hs]
    constructor
    · constructor
      · intro hsucc
        by_cases hA : isNumOne (specMkdirResultVal p) = true
        · exact Or.inl ((isNumOne_iff _).mp hA)
        · simp only [Bool.not_eq_true] at hA
          right
          by_cases hB : (existsCheckVal p).truthy = true
          · cases h4 : specReasonVal p with
            | str s =>
                refine ⟨s, rfl, ?_⟩
                have hE : existsCheckVal p = .bool (jsIncludes s "exists") := by
                  simp [existsCheckVal, h4]
                rw [hE] at hB
                simpa [JsVal.truthy] using hB
            | undefined =>
                have hE : existsCheckVal p = .undefined := by simp [existsCheckVal, h4]
                rw [hE] at hB
                simp [JsVal.truthy] at hB
            | null =>
                have hE : existsCheckVal p = .undefined := by simp [existsCheckVal, h4]
                rw [hE] at hB
                simp [JsVal.truthy] at hB
            | bool b => simp [reasonIsTextOrAbsent, h4] at hr
            | num n => simp [reasonIsTextOrAbsent, h4] at hr
            | arr es => simp [reasonIsTextOrAbsent, h4] at hr
            | obj fs => simp [reasonIsTextOrAbsent, h4] at hr
          · simp only [Bool.not_eq_true] at hB
            simp [hA, hB] at hsucc
      · rintro (h1 | ⟨s, hs1, hs2⟩)
        · simp [(isNumOne_iff _).mpr h1]
        · by_cases hA : isNumOne (specMkdirResultVal p) = true
          · simp [hA]
          · simp only [Bool.not_eq_true] at hA
            have hE : existsCheckVal p = .bool true := by
              simp [existsCheckVal, hs1, hs2]
            simp [hA, hE, JsVal.truthy]
    · rintro ⟨hn1, hn2⟩
      have hA : isNumOne (specMkdirResultVal p) = false := by
        cases hq : isNumOne (specMkdirResultVal p) with
        | false => rfl
        | true => exact absurd ((isNumOne_iff _).mp hq) hn1
      have hB : (existsCheckVal p).truthy = false := by
        cases h4 : specReasonVal p with
        | str s =>
            have hj : jsIncludes s "exists" = false := by
              cases hq : jsIncludes s "exists" with
              | false => rfl
              | true => exact absurd ⟨s, h4, hq⟩ hn2
            simp [existsCheckVal, h4, hj, JsVal.truthy]
        | undefined => simp [existsCheckVal, h4, JsVal.truthy]
        | null => simp [existsCheckVal, h4, JsVal.truthy]
        | bool b => simp [reasonIsTextOrAbsent, h4] at hr
        | num n => simp [reasonIsTextOrAbsent, h4] at hr
        | arr es => simp [reasonIsTextOrAbsent, h4] at hr
        | obj fs => simp [reasonIsTextOrAbsent, h4] at hr
      simp [hA, hB]

/-- C1 witness: the exists-reason failure payload is non-nullish, has a
textual reason, and is classified Success via the exists rule. -/
theorem createDirectoryClassification_witness :
    (mkdirExistsFailurePayload.isNullish = false) ∧
    ((specMkdirResultVal mkdirExistsFailurePayload = JsVal.num 1 →
        classifyMkdir mkdirExistsFailurePayload = .ok .success) ∧
      (reasonIsTextOrAbsent mkdirExistsFailurePayload = true →
        ((classifyMkdir mkdirExistsFailurePayload = .ok .success ↔
            (specMkdirResultVal mkdirExistsFailurePayload = JsVal.num 1 ∨
              ∃ s, specReasonVal mkdirExistsFailurePayload = JsVal.str s ∧
                jsIncludes s "exists" = true)) ∧
          ((specMkdirResultVal mkdirExistsFailurePayload ≠ JsVal.num 1 ∧
              ¬ ∃ s, specReasonVal mkdirExistsFailurePayload = JsVal.str s ∧
                jsIncludes s "exists" = true) →
            classifyMkdir mkdirExistsFailurePayload =
              .ok (.failure "Directory creation failed" (some mkdirExistsFailurePayload)))))) :=
  ⟨rfl, createDirectoryClassification mkdirExistsFailurePayload rfl⟩

theorem addFileParts_length (files : List LocalFile) :
    ∀ n, (addFileParts n files).length = files.length := by
  induction files with
  | nil => intro n; rfl
  | cons f rest ih => intro n; simp [addFileParts, ih]

theorem addFileParts_no_field (files : List LocalFile) :
    ∀ n, (addFileParts n files).filter isFieldEntry = [] := by
  induction files with
  | nil => intro n; rfl
  | cons f rest ih => intro n; simp [addFileParts, List.filter_cons, isFieldEntry, ih]

theorem addFileParts_getD (files : List LocalFile) :
    ∀ n i, i < files.length →
      (addFileParts n files).getD i (.field "" "") =
        .filePart ("file-" ++ toString (n + i)) (basename ((files.getD i ⟨"", ""⟩).path))
          ((files.getD i ⟨"", ""⟩).content) "text/plain" := by
  induction files with
  | nil => intro n i hi; simp at hi
  | cons f rest ih =>
      intro n i hi
      cases i with
      | zero => simp [addFileParts]
      | succ j =>
          have hj : j < rest.length := by simpa using hi
          simp only [addFileParts, List.getD_cons_succ]
          rw [ih (n + 1) j hj]
          have hn : n + 1 + j = n + (j + 1) := by omega
          rw [hn]

/-- C2: for every destination directory and non-empty file list, the
multipart body contains exactly one plain field, `dir` with the supplied
directory verbatim, and one file part per input file, keyed `file-(i+1)`
at position i in input order, carrying the file's base name, its
contents and content type `text/plain`. -/
theorem uploadFormShape (dir : String) (files : List LocalFile) (h : files ≠ []) :
    ((buildUploadForm dir files).filter isFieldEntry = [.field "dir" dir]) ∧
    ((buildUploadForm dir files).length = files.length + 1) ∧
    (∀ i, i < files.length →
      (buildUploadForm dir files).getD (i + 1) (.field "" "") =
        .filePart ("file-" ++ toString (i + 1)) (basename ((files.getD i ⟨"", ""⟩).path))
          ((files.getD i ⟨"", ""⟩).content) "text/plain") := by
  refine ⟨?_, ?_, ?_⟩
  · simp [buildUploadForm, List.filter_cons, isFieldEntry, addFileParts_no_field files 1]
  · simp [buildUploadForm, addFileParts_length files 1]
  · intro i hi
    simp only [buildUploadForm, List.getD_cons_succ]
    rw [addFileParts_getD files 1 i hi]
    have h1 : 1 + i = i + 1 := by omega
    rw [h1]

/-- C2 witness: a concrete singleton upload produces the dir field and
one `file-1` part with the base name and contents. -/
theorem uploadFormShape_witness :
    (([⟨"temp_upload/hello.txt", "hello world"⟩] : List LocalFile) ≠ []) ∧
    (((buildUploadForm "public_html" [⟨"temp_upload/hello.txt", "hello world"⟩]).filter
        isFieldEntry = [.field "dir" "public_html"]) ∧
      ((buildUploadForm "public_html" [⟨"temp_upload/hello.txt", "hello world"⟩]).length =
        ([(⟨"temp_upload/hello.txt", "hello world"⟩ : LocalFile)]).length + 1) ∧
      (∀ i, i < ([(⟨"temp_upload/hello.txt", "hello world"⟩ : LocalFile)]).length →
        (buildUploadForm "public_html" [⟨"temp_upload/hello.txt", "hello world"⟩]).getD
            (i + 1) (.field "" "") =
          .filePart ("file-" ++ toString (i + 1))
            (basename ((([(⟨"temp_upload/hello.txt", "hello world"⟩ : LocalFile)]).getD
              i ⟨"", ""⟩).path))
            ((([(⟨"temp_upload/hello.txt", "hello world"⟩ : LocalFile)]).getD
              i ⟨"", ""⟩).content) "text/plain")) :=
  ⟨by simp, uploadFormShape "public_html" [⟨"temp_upload/hello.txt", "hello world"⟩] (by simp)⟩

/-- C4: whenever the directory-creation step fails with a reason not
containing `exists`, the run never attempts the file-2 upload into the
new nested directory and exits non-zero. -/
theorem mkdirFailureAbortsRun (cfg : Config) (ts : String) (env : Env)
    (r : String) (d : Option JsVal)
    (hfail : ensureRemoteDirectory env.mkdir1 = .ok (.failure r d))
    (hex : jsIncludes r "exists" = false) :
    (¬ attemptsUploadTo (runMain cfg ts env) ("public_html/" ++ ts ++ "_test_dir")) ∧
    (runMain cfg ts env).exitCode ≠ 0 := by
  have hne : ("public_html" : String) ≠ "public_html/" ++ ts ++ "_test_dir" := by
    intro he
    have hlen := congrArg String.length he
    rw [String.length_append, String.length_append] at hlen
    have h1 : ("public_html" : String).length = 11 := rfl
    have h2 : ("public_html/" : String).length = 12 := rfl
    have h3 : ("_test_dir" : String).length = 9 := rfl
    omega
  have key : ((runMain cfg ts env).steps =
        [Step.uploadCall "public_html"
          (buildUploadForm "public_html" [⟨"temp_upload/" ++ (ts ++ ".txt"), "hello world"⟩])] ∨
      (runMain cfg ts env).steps =
        [Step.uploadCall "public_html"
            (buildUploadForm "public_html" [⟨"temp_upload/" ++ (ts ++ ".txt"), "hello world"⟩]),
          Step.mkdirCall (publicHtmlPath cfg) (ts ++ "_test_dir")]) ∧
      (runMain cfg ts env).exitCode = 1 := by
    unfold runMain
    simp only [uploadFiles]
    cases hc1 : uploadRespond env.upload1 with
    | error e => exact ⟨Or.inl rfl, rfl⟩
    | ok res =>
        cases res with
        | success =>
            rw [hfail]
            exact ⟨Or.inr rfl, rfl⟩
        | failure fr fd => exact ⟨Or.inl rfl, rfl⟩
  constructor
  · rintro ⟨f, hf⟩
    rcases key.1 with hs | hs <;> rw [hs] at hf <;> simp at hf <;>
      exact (Ne.symm hne) hf.1
  · rw [key.2]
    decide

/-- C4 witness: with the mkdir request answered by an empty object, the
concrete run never uploads into the nested directory and exits 1. -/
theorem mkdirFailureAbortsRun_witness :
    (ensureRemoteDirectory envMkdirFailEx.mkdir1 =
        .ok (.failure "Directory creation failed" (some (JsVal.obj [])))) ∧
    (jsIncludes "Directory creation failed" "exists" = false) ∧
    ((¬ attemptsUploadTo (runMain cfgEx "20250101120000" envMkdirFailEx)
        ("public_html/" ++ "20250101120000" ++ "_test_dir")) ∧
      (runMain cfgEx "20250101120000" envMkdirFailEx).exitCode ≠ 0) :=
  ⟨rfl, by decide,
    mkdirFailureAbortsRun cfgEx "20250101120000" envMkdirFailEx
      "Directory creation failed" (some (JsVal.obj [])) rfl (by decide)⟩

/-- C5: with every provider response successful, a run with timestamp
`ts` uploads `<ts>.txt` with content `hello world` to `public_html`,
creates `<ts>_test_dir` under `<homeBase>/<user>/public_html`, uploads
`<ts>_file2.txt` with content `hello world` to
`public_html/<ts>_test_dir`, exits 0, and removes its temp directory;
every request parameter is determined by the timestamp and
configuration. -/
theorem mainSuccessRun (cfg : Config) (ts : String) (cl : Bool) (h : '/' ∉ ts.data) :
    runMain cfg ts (mainSuccessEnv cl) =
      ⟨[Step.uploadCall "public_html"
          [FormEntry.field "dir" "public_html",
            FormEntry.filePart "file-1" (ts ++ ".txt") "hello world" "text/plain"],
        Step.mkdirCall (cfg.homeBase ++ "/" ++ cfg.user ++ "/public_html") (ts ++ "_test_dir"),
        Step.uploadCall ("public_html/" ++ (ts ++ "_test_dir"))
          [FormEntry.field "dir" ("public_html/" ++ (ts ++ "_test_dir")),
            FormEntry.filePart "file-1" (ts ++ "_file2.txt") "hello world" "text/plain"]],
        0, true, cl⟩ := by
  have hslash1 : '/' ∉ (ts ++ ".txt").data := by
    rw [strData_append]
    intro hmem
    rcases List.mem_append.mp hmem with hm | hm
    · exact h hm
    · exact absurd hm (by decide)
  have hslash2 : '/' ∉ (ts ++ "_file2.txt").data := by
    rw [strData_append]
    intro hmem
    rcases List.mem_append.mp hmem with hm | hm
    · exact h hm
    · exact absurd hm (by decide)
  have hb1 := basename_tempUpload _ hslash1
  have hb2 := basename_tempUpload _ hslash2
  have hred : runMain cfg ts (mainSuccessEnv cl) =
      ⟨[Step.uploadCall "public_html"
          [FormEntry.field "dir" "public_html",
            FormEntry.filePart "file-1" (basename ("temp_upload/" ++ (ts ++ ".txt")))
              "hello world" "text/plain"],
        Step.mkdirCall (cfg.homeBase ++ "/" ++ cfg.user ++ "/public_html") (ts ++ "_test_dir"),
        Step.uploadCall ("public_html/" ++ (ts ++ "_test_dir"))
          [FormEntry.field "dir" ("public_html/" ++ (ts ++ "_test_dir")),
            FormEntry.filePart "file-1" (basename ("temp_upload/" ++ (ts ++ "_file2.txt")))
              "hello world" "text/plain"]],
        0, true, cl⟩ := rfl
  rw [hred, hb1, hb2]

/-- C5 witness: the fully successful run at a concrete timestamp and
configuration, with every request parameter spelled out. -/
theorem mainSuccessRun_witness :
    ('/' ∉ "20250101120000".data) ∧
    runMain cfgEx "20250101120000" (mainSuccessEnv true) =
      ⟨[Step.uploadCall "public_html"
          [FormEntry.field "dir" "public_html",
            FormEntry.filePart "file-1" ("20250101120000" ++ ".txt") "hello world" "text/plain"],
        Step.mkdirCall (cfgEx.homeBase ++ "/" ++ cfgEx.user ++ "/public_html")
          ("20250101120000" ++ "_test_dir"),
        Step.uploadCall ("public_html/" ++ ("20250101120000" ++ "_test_dir"))
          [FormEntry.field "dir" ("public_html/" ++ ("20250101120000" ++ "_test_dir")),
            FormEntry.filePart "file-1" ("20250101120000" ++ "_file2.txt")
              "hello world" "text/plain"]],
        0, true, true⟩ :=
  ⟨by decide, mainSuccessRun cfgEx "20250101120000" true (by decide)⟩

/-- C6: failure reasons of the two operations are mutually
distinguishable — transport failures carry the `Fetch failed:` prefix
and never the `HTTP` prefix, HTTP status failures carry the `HTTP`
prefix and never the `Fetch failed:` prefix, application-level failures
carry neither, and no reason lies in two categories. -/
theorem failureReasonCategories :
    (∀ r : String, ¬(isTransportReason r = true ∧ isHttpReason r = true)) ∧
    (∀ dir files msg r d,
        (ensureRemoteDirectory (.netError msg) = .ok (.failure r d) ∨
          (uploadFiles dir files (.netError msg)).2 = .ok (.failure r d)) →
        isTransportReason r = true ∧ isHttpReason r = false) ∧
    (∀ dir files status stext r d,
        (ensureRemoteDirectory (.httpError status stext) = .ok (.failure r d) ∨
          (uploadFiles dir files (.httpError status stext)).2 = .ok (.failure r d)) →
        isHttpReason r = true ∧ isTransportReason r = false) ∧
    (∀ p r d,
        (classifyMkdir p = .ok (.failure r d) ∨ classifyUpload p = .ok (.failure r d)) →
        isTransportReason r = false ∧ isHttpReason r = false) := by
  have hFd : "Fetch failed:".data = 'F' :: "etch failed:".data := by decide
  have hHd : "HTTP".data = 'H' :: "TTP".data := by decide
  refine ⟨?_, ?_, ?_, ?_⟩
  · rintro r ⟨h1, h2⟩
    unfold isTransportReason at h1
    unfold isHttpReason at h2
    rw [hFd] at h1
    rw [hHd] at h2
    obtain ⟨t1, e1⟩ := prefix_head_eq h1
    obtain ⟨t2, e2⟩ := prefix_head_eq h2
    rw [e1] at e2
    injection e2 with hc _
    exact absurd hc (by decide)
  · intro dir files msg r d hor
    have hr : r = "Fetch failed: " ++ msg := by
      rcases hor with hcase | hcase
      · simp [ensureRemoteDirectory] at hcase
        exact hcase.1.symm
      · simp [uploadFiles, uploadRespond] at hcase
        exact hcase.1.symm
    subst hr
    constructor
    · unfold isTransportReason
      rw [strData_append]
      exact isPrefixOf_append (by decide)
    · unfold isHttpReason
      rw [strData_append]
      have hF2 : "Fetch failed: ".data = 'F' :: "etch failed: ".data := by decide
      rw [hF2, List.cons_append, hHd]
      exact isPrefixOf_cons_false _ _ (by decide)
  · intro dir files status stext r d hor
    have hr : r = "HTTP " ++ toString status ++ ": " ++ stext := by
      rcases hor with hcase | hcase
      · simp [ensureRemoteDirectory] at hcase
        exact hcase.1.symm
      · simp [uploadFiles, uploadRespond] at hcase
        exact hcase.1.symm
    subst hr
    have hsplit : ("HTTP " ++ toString status ++ ": " ++ stext).data =
        "HTTP ".data ++ ((toString status).data ++ ": ".data ++ stext.data) := by
      rw [strData_append, strData_append, strData_append]
      simp [List.append_assoc]
    constructor
    · unfold isHttpReason
      rw [hsplit]
      exact isPrefixOf_append (by decide)
    · unfold isTransportReason
      rw [hsplit]
      have hH2 : "HTTP ".data = 'H' :: "TTP ".data := by decide
      rw [hH2, List.cons_append, hFd]
      exact isPrefixOf_cons_false _ _ (by decide)
  · intro p r d hor
    have hr : r = "Directory creation failed" ∨ r = "File upload failed" := by
      rcases hor with hcase | hcase
      · exact Or.inl (classifyMkdir_failure_reason p r d hcase)
      · exact Or.inr (classifyUpload_failure_reason p r d hcase)
    rcases hr with hcase | hcase <;> subst hcase <;> exact ⟨by decide, by decide⟩

/-- C6 witness: one concrete reason of each category, produced by the
operations, with its category memberships evaluated. -/
theorem failureReasonCategories_witness :
    (isTransportReason ("Fetch failed: " ++ "connect ECONNREFUSED") = true ∧
      isHttpReason ("Fetch failed: " ++ "connect ECONNREFUSED") = false) ∧
    (isHttpReason ("HTTP " ++ toString 403 ++ ": " ++ "Forbidden") = true ∧
      isTransportReason ("HTTP " ++ toString 403 ++ ": " ++ "Forbidden") = false) ∧
    (isTransportReason "Directory creation failed" = false ∧
      isHttpReason "Directory creation failed" = false) :=
  ⟨failureReasonCategories.2.1 "public_html" [] "connect ECONNREFUSED"
      ("Fetch failed: " ++ "connect ECONNREFUSED") none (Or.inl rfl),
    failureReasonCategories.2.2.1 "public_html" [] 403 "Forbidden"
      ("HTTP " ++ toString 403 ++ ": " ++ "Forbidden") none (Or.inl rfl),
    failureReasonCategories.2.2.2 (JsVal.obj []) "Directory creation failed"
      (some (JsVal.obj [])) (Or.inl rfl)⟩
